import Mathlib

/-!
Shallow embedding of `src/trello_cli.py` (a small Trello CLI client) and
verification of its specification claims.

The embedding models:
* the JSON values the client consumes plus a parser for the JSON subset the
  remote service returns (`json.loads` on objects/arrays/strings/ints/bools/null);
* HTTP exchange as a pure oracle `Net : HttpRequest → HttpResponse`; each
  operation returns its result together with the list of requests it issued;
* the `Trello` API-client class (`request`, `listBoards`, `listColumns`,
  `listLabels`, `addCard`, `addComment`);
* the `Cli` class (`getConfig` over flag/environment inputs, `action`), with
  Python truthiness (`not x`) made explicit and unhandled Python exceptions
  (UnboundLocalError, json decode errors, KeyError/TypeError) modelled as
  distinguished fault outcomes.
-/

/-- JSON values, as produced by `json.loads` for the subset this client uses. -/
inductive Json where
  | null : Json
  | bool : Bool → Json
  | num : Int → Json
  | str : String → Json
  | arr : List Json → Json
  | obj : List (String × Json) → Json

/-- JSON whitespace, as accepted between tokens by `json.loads`. -/
def isJsonWs (c : Char) : Bool :=
  [' ', '\t', '\n', '\r'].contains c

/-- Drop leading JSON whitespace. -/
def skipWs : List Char → List Char
  | [] => []
  | c :: cs => if isJsonWs c then skipWs cs else c :: cs

/-- The JSON single-character escapes as a lookup table: escape letter paired
with the character it denotes (the `\uXXXX` form is not needed by any
response this development evaluates and is left out of the subset). -/
def escapeTable : List (Char × Char) :=
  [('"', '"'), ('\\', '\\'), ('/', '/'), ('n', '\n'), ('t', '\t'),
   ('r', '\r'), ('b', Char.ofNat 8), ('f', Char.ofNat 12)]

/-- Decode one JSON string escape character via the table. -/
def parseEscape (c : Char) : Option Char :=
  (escapeTable.find? (fun p => p.1 == c)).map (fun p => p.2)

/-- Parse the body of a JSON string after the opening quote; returns the
decoded characters and the remainder after the closing quote. -/
def parseStringBody : List Char → Option (List Char × List Char)
  | [] => none
  | c :: cs =>
    if c == '"' then some ([], cs)
    else if c == '\\' then
      match cs with
      | [] => none
      | e :: cs2 =>
        match parseEscape e, parseStringBody cs2 with
        | some ec, some (content, rest) => some (ec :: content, rest)
        | _, _ => none
    else
      match parseStringBody cs with
      | some (content, rest) => some (c :: content, rest)
      | none => none

/-- Take a maximal run of decimal digits. -/
def takeDigits : List Char → List Char × List Char
  | [] => ([], [])
  | c :: cs =>
    if c.isDigit then
      let (ds, r) := takeDigits cs
      (c :: ds, r)
    else ([], c :: cs)

/-- Numeric value of a digit run. -/
def digitsVal (ds : List Char) : Nat :=
  ds.foldl (fun a c => a * 10 + (c.toNat - 48)) 0

/-- Does the character list start with the given character list? -/
def chStartsWith : List Char → List Char → Bool
  | _, [] => true
  | [], _ :: _ => false
  | c :: cs, p :: ps => c == p && chStartsWith cs ps

/-- Does the character list contain the given character list as a contiguous
run? -/
def chHasSub : List Char → List Char → Bool
  | [], sub => chStartsWith [] sub
  | c :: rest, sub => chStartsWith (c :: rest) sub || chHasSub rest sub

/-- Substring test on strings (used to state that an error message mentions a
status code, a body, or a flag name). -/
def strContains (s sub : String) : Bool :=
  chHasSub s.data sub.data

/-- The opening brace character. -/
def lbraceChar : Char := Char.ofNat 123

/-- The closing brace character. -/
def rbraceChar : Char := Char.ofNat 125

/-- Insert a key into an association list with Python-dict semantics: an
existing key keeps its position but takes the new value, a new key is
appended.  This is how `json.loads` resolves duplicate object keys. -/
def dictInsert : List (String × Json) → String → Json → List (String × Json)
  | [], k, v => [(k, v)]
  | (k0, v0) :: rest, k, v =>
    if k0 == k then (k0, v) :: rest
    else (k0, v0) :: dictInsert rest k v

mutual

/-- Parse one JSON value (fuel-indexed recursion; `jsonParse` supplies ample
fuel, so the fuel-exhausted branch is unreachable on actual inputs). -/
def parseVal (fuel : Nat) (cs : List Char) : Option (Json × List Char) :=
  match fuel with
  | 0 => none
  | fuel + 1 =>
    match skipWs cs with
    | [] => none
    | c :: rest =>
      if c == '"' then
        match parseStringBody rest with
        | some (content, r) => some (Json.str (String.mk content), r)
        | none => none
      else if c == lbraceChar then
        match skipWs rest with
        | d :: r2 =>
          if d == rbraceChar then some (Json.obj [], r2)
          else parseObjItems fuel (skipWs rest) []
        | [] => none
      else if c == '[' then
        match skipWs rest with
        | d :: r2 =>
          if d == ']' then some (Json.arr [], r2)
          else parseArrItems fuel (skipWs rest) []
        | [] => none
      else if c == '-' then
        match takeDigits rest with
        | ([], _) => none
        | (ds, r) => some (Json.num (-(Int.ofNat (digitsVal ds))), r)
      else if c.isDigit then
        match takeDigits (c :: rest) with
        | (ds, r) => some (Json.num (Int.ofNat (digitsVal ds)), r)
      else if chStartsWith (c :: rest) ['t', 'r', 'u', 'e'] then
        some (Json.bool true, (c :: rest).drop 4)
      else if chStartsWith (c :: rest) ['f', 'a', 'l', 's', 'e'] then
        some (Json.bool false, (c :: rest).drop 5)
      else if chStartsWith (c :: rest) ['n', 'u', 'l', 'l'] then
        some (Json.null, (c :: rest).drop 4)
      else none

/-- Parse the comma-separated items of a JSON array after the opening
bracket (the empty-array case is handled by `parseVal`). -/
def parseArrItems (fuel : Nat) (cs : List Char) (acc : List Json) :
    Option (Json × List Char) :=
  match fuel with
  | 0 => none
  | fuel + 1 =>
    match parseVal fuel cs with
    | none => none
    | some (v, r1) =>
      match skipWs r1 with
      | ',' :: r2 => parseArrItems fuel (skipWs r2) (acc ++ [v])
      | ']' :: r2 => some (Json.arr (acc ++ [v]), r2)
      | _ => none

/-- Parse the comma-separated members of a JSON object after the opening
brace (the empty-object case is handled by `parseVal`). -/
def parseObjItems (fuel : Nat) (cs : List Char) (acc : List (String × Json)) :
    Option (Json × List Char) :=
  match fuel with
  | 0 => none
  | fuel + 1 =>
    match cs with
    | c :: rest =>
      if c == '"' then
        match parseStringBody rest with
        | none => none
        | some (keyChars, r1) =>
          match skipWs r1 with
          | ':' :: r2 =>
            match parseVal fuel (skipWs r2) with
            | none => none
            | some (v, r3) =>
              let acc2 := dictInsert acc (String.mk keyChars) v
              match skipWs r3 with
              | ',' :: r4 => parseObjItems fuel (skipWs r4) acc2
              | d :: r4 =>
                if d == rbraceChar then some (Json.obj acc2, r4) else none
              | [] => none
          | _ => none
      else none
    | [] => none

end

/-- `json.loads`: parse a whole string as one JSON value, requiring only
whitespace after it; `none` models a raised `json.JSONDecodeError`. -/
def jsonParse (s : String) : Option Json :=
  match parseVal (4 * (s.length + 1)) s.data with
  | some (j, rest) => if (skipWs rest).isEmpty then some j else none
  | none => none

/-- An HTTP request as issued by the `requests` library calls in the source:
method, full URL (the code already embeds `key`/`token` in its query string),
extra query/body parameters, and headers. -/
structure HttpRequest where
  method : String
  url : String
  params : List (String × String)
  headers : List (String × String)

/-- An HTTP response: status code and raw body text. -/
structure HttpResponse where
  status_code : Nat
  text : String

/-- The network oracle: what the remote service answers to each request. -/
abbrev Net : Type := HttpRequest → HttpResponse

/-- Python truthiness of an optional string: `None` and `""` are falsy,
every other string is truthy (`not x` in the source). -/
def pyTruthyOpt : Option String → Bool
  | none => false
  | some s => !(s == "")

/-- Resolution of an argparse argument whose default is an environment
variable: an explicitly passed flag wins, otherwise the environment value
(possibly absent) is used. -/
def resolveOpt (flag env : Option String) : Option String :=
  match flag with
  | some v => some v
  | none => env

/-- ASCII whitespace as matched by the regex class in the source pattern. -/
def isPySpace (c : Char) : Bool :=
  [' ', '\t', '\n', '\r', Char.ofNat 11, Char.ofNat 12].contains c

/-- Take a maximal run of whitespace, returning its length and the rest. -/
def takeSpaces : List Char → Nat × List Char
  | [] => (0, [])
  | c :: cs =>
    if isPySpace c then
      let (n, r) := takeSpaces cs
      (n + 1, r)
    else (0, c :: cs)

/-- Match the source's separator pattern (one or more whitespace characters,
a comma, then one or more whitespace characters) at the head of the list,
returning the remainder on success. -/
def matchWsCommaWs (cs : List Char) : Option (List Char) :=
  let (n, r1) := takeSpaces cs
  if n == 0 then none
  else
    match r1 with
    | c :: r2 =>
      if c == ',' then
        let (m, r3) := takeSpaces r2
        if m == 0 then none else some r3
      else none
    | [] => none

/-- Worker for the regex split, with fuel (one unit per consumed character
suffices, and `reSplitWsCommaWs` supplies more). -/
def reSplitGo : Nat → List Char → List Char → List String
  | _, acc, [] => [String.mk acc.reverse]
  | 0, acc, cs => [String.mk (acc.reverse ++ cs)]
  | fuel + 1, acc, c :: cs =>
    match matchWsCommaWs (c :: cs) with
    | some rest => String.mk acc.reverse :: reSplitGo fuel [] rest
    | none => reSplitGo fuel (c :: acc) cs

/-- The source's `re.split` call on the `--label_ids` value: split the string
at every occurrence of whitespace-comma-whitespace.  Note that a bare comma
with no surrounding whitespace is not a separator under this pattern. -/
def reSplitWsCommaWs (s : String) : List String :=
  reSplitGo (s.length + 1) [] s.data

/-- Unhandled Python exceptions the client can raise, by kind:
reading the never-assigned local `r` in `Trello.request` for a method other
than GET/POST, a `json.loads` failure, and a `KeyError`/`TypeError` while
extracting or concatenating response fields. -/
inductive PyError where
  | unboundLocal : PyError
  | jsonDecode : PyError
  | fieldOrType : PyError
deriving DecidableEq

/-- Result of `Trello.request`: parsed JSON, a raised `ApiRequestException`
with its message, or an unhandled Python exception. -/
inductive ReqResult where
  | ok : Json → ReqResult
  | apiError : String → ReqResult
  | pyErr : PyError → ReqResult

/-- The `Trello` API client object: the credentials stored by `__init__`. -/
structure Trello where
  key : String
  token : String

/-- `Trello.BASE_URI`. -/
def Trello.BASE_URI : String := "https://api.trello.com"

/-- `Trello.HEADERS`. -/
def Trello.HEADERS : List (String × String) := [("Accept", "application/json")]

/-- The URL built by `Trello.request`: base URI, endpoint path, and the
credentials as query-string parameters. -/
def Trello.url (t : Trello) (uri : String) : String :=
  Trello.BASE_URI ++ uri ++ "?key=" ++ t.key ++ "&token=" ++ t.token

/-- The `ApiRequestException` message for a non-200 response. -/
def apiErrMsg (r : HttpResponse) : String :=
  "Trello API returned status code " ++ toString r.status_code
    ++ ". response body: " ++ r.text

/-- `Trello.request`: issue one GET or POST (any other method leaves the
response variable unassigned and faults when it is read); on a 200 response
parse the body as JSON, otherwise raise `ApiRequestException` with the status
code and raw body.  The second component records the requests issued. -/
def Trello.request (t : Trello) (net : Net) (method uri : String)
    (query : List (String × String)) : ReqResult × List HttpRequest :=
  let url := t.url uri
  let sent : Option (HttpResponse × HttpRequest) :=
    if method == "GET" then
      let req : HttpRequest := ⟨"GET", url, query, Trello.HEADERS⟩
      some (net req, req)
    else if method == "POST" then
      let req : HttpRequest := ⟨"POST", url, query, Trello.HEADERS⟩
      some (net req, req)
    else none
  match sent with
  | none => (ReqResult.pyErr PyError.unboundLocal, [])
  | some (r, req) =>
    ((if r.status_code == 200 then
        match jsonParse r.text with
        | some parsed => ReqResult.ok parsed
        | none => ReqResult.pyErr PyError.jsonDecode
      else
        ReqResult.apiError (apiErrMsg r)), [req])

/-- `Trello.listBoards`. -/
def Trello.listBoards (t : Trello) (net : Net) : ReqResult × List HttpRequest :=
  t.request net "GET" "/1/members/me/boards" []

/-- `Trello.listColumns`. -/
def Trello.listColumns (t : Trello) (net : Net) (boardId : String) :
    ReqResult × List HttpRequest :=
  t.request net "GET" ("/1/boards/" ++ boardId ++ "/lists") []

/-- `Trello.listLabels`. -/
def Trello.listLabels (t : Trello) (net : Net) (boardId : String) :
    ReqResult × List HttpRequest :=
  t.request net "GET" ("/1/boards/" ++ boardId ++ "/labels") []

/-- `Trello.addCard` (the Python default `labels=None` is modelled by the
optional argument, replaced by the empty list as in the source). -/
def Trello.addCard (t : Trello) (net : Net) (listId nm dsc : String)
    (labels : Option (List String)) : ReqResult × List HttpRequest :=
  let labels := labels.getD []
  t.request net "POST" "/1/cards"
    [("idList", listId), ("name", nm), ("desc", dsc),
     ("idLabels", String.intercalate "," labels)]

/-- `Trello.addComment`. -/
def Trello.addComment (t : Trello) (net : Net) (cardId cmt : String) :
    ReqResult × List HttpRequest :=
  t.request net "POST" ("/1/cards/" ++ cardId ++ "/actions/comments")
    [("id", cardId), ("text", cmt)]

/-- Python `obj["k"]` restricted to string values: field lookup on a JSON
object, `none` both for a missing key (`KeyError`), a non-object
(`TypeError`), and a non-string value (the subsequent `+` raises
`TypeError`). -/
def Json.getStr (j : Json) (k : String) : Option String :=
  match j with
  | Json.obj fields =>
    match fields.find? (fun p => p.1 == k) with
    | some (_, Json.str s) => some s
    | _ => none
  | _ => none

/-- Python `for x in j` on a parsed JSON value: arrays yield their elements,
dicts yield their keys, strings yield their characters, and other values
raise `TypeError` (`none`). -/
def pyIter : Json → Option (List Json)
  | Json.arr xs => some xs
  | Json.obj fields => some (fields.map (fun p => Json.str p.1))
  | Json.str s => some (s.data.map (fun c => Json.str (String.mk [c])))
  | _ => none

/-- The boards/columns loop body: one `"{id} {name}\n"` line per record, in
order; `none` when a record lacks the fields (unhandled exception). -/
def formatIdName : List Json → Option String
  | [] => some ""
  | b :: rest =>
    match Json.getStr b "id", Json.getStr b "name" with
    | some i, some n =>
      match formatIdName rest with
      | some s => some (i ++ " " ++ n ++ "\n" ++ s)
      | none => none
    | _, _ => none

/-- The labels loop body: one `"{id} {name} {color}\n"` line per record. -/
def formatIdNameColor : List Json → Option String
  | [] => some ""
  | b :: rest =>
    match Json.getStr b "id", Json.getStr b "name", Json.getStr b "color" with
    | some i, some n, some c =>
      match formatIdNameColor rest with
      | some s => some (i ++ " " ++ n ++ " " ++ c ++ "\n" ++ s)
      | none => none
    | _, _, _ => none

/-- The validated argument dictionary built by `Cli.getConfig`. -/
structure Args where
  key : String
  token : String
  list_boards : Bool
  list_columns : Bool
  list_labels : Bool
  add_card : Bool
  add_comment : Bool
  board_id : Option String
  list_id : Option String
  card_id : Option String
  name : Option String
  description : Option String
  comment : Option String
  label_ids : List String

/-- One CLI invocation as argparse sees it: each value flag either passed or
absent, the credential environment variables either set or unset, and the
five store-true action flags. -/
structure CliInput where
  flagKey : Option String
  envKey : Option String
  flagToken : Option String
  envToken : Option String
  list_boards : Bool
  list_columns : Bool
  list_labels : Bool
  add_card : Bool
  add_comment : Bool
  board_id : Option String
  list_id : Option String
  card_id : Option String
  name : Option String
  description : Option String
  comment : Option String
  label_ids : Option String

/-- The `CliException` message for missing credentials. -/
def keyTokenMsg : String :=
  "--key and --token are required to interact with the Trello API."

/-- The `CliException` message for an invocation with no action flag. -/
def actionUsageMsg : String :=
  "Please specify an action:\n\n  --list-boards\n  --list-columns\n  --list-labels\n  --add-card\n  --add-comment\n    \nor specify --help for more information."

/-- `Cli.getConfig`: resolve `--key`/`--token` against the environment
defaults, fail when either resolves falsy, and build the args dictionary,
splitting `--label_ids` (argparse default `""`) with the source's regex. -/
def Cli.getConfig (inp : CliInput) : Except String Args :=
  let key := resolveOpt inp.flagKey inp.envKey
  let token := resolveOpt inp.flagToken inp.envToken
  if !(pyTruthyOpt key) || !(pyTruthyOpt token) then
    Except.error keyTokenMsg
  else
    Except.ok
      { key := key.getD ""
        token := token.getD ""
        list_boards := inp.list_boards
        list_columns := inp.list_columns
        list_labels := inp.list_labels
        add_card := inp.add_card
        add_comment := inp.add_comment
        board_id := inp.board_id
        list_id := inp.list_id
        card_id := inp.card_id
        name := inp.name
        description := inp.description
        comment := inp.comment
        label_ids := reSplitWsCommaWs (inp.label_ids.getD "") }

/-- Overall outcome of an invocation: printed output, a `CliException`
(usage error), an `ApiRequestException`, or an unhandled Python exception. -/
inductive Outcome where
  | ok : String → Outcome
  | usage : String → Outcome
  | api : String → Outcome
  | fault : PyError → Outcome

/-- `Cli.action`: dispatch on the action flags in source order, validate the
action's required fields, perform the single API call, and format the
output.  The second component records the HTTP requests issued. -/
def Cli.action (args : Args) (net : Net) : Outcome × List HttpRequest :=
  let trello : Trello := ⟨args.key, args.token⟩
  if args.list_boards then
    let res := Trello.listBoards trello net
    match res.1 with
    | ReqResult.ok j =>
      match pyIter j with
      | some elems =>
        match formatIdName elems with
        | some out => (Outcome.ok out, res.2)
        | none => (Outcome.fault PyError.fieldOrType, res.2)
      | none => (Outcome.fault PyError.fieldOrType, res.2)
    | ReqResult.apiError m => (Outcome.api m, res.2)
    | ReqResult.pyErr e => (Outcome.fault e, res.2)
  else if args.list_columns then
    if !(pyTruthyOpt args.board_id) then
      (Outcome.usage "--board_id is required to list columns.", [])
    else
      let res := Trello.listColumns trello net (args.board_id.getD "")
      match res.1 with
      | ReqResult.ok j =>
        match pyIter j with
        | some elems =>
          match formatIdName elems with
          | some out => (Outcome.ok out, res.2)
          | none => (Outcome.fault PyError.fieldOrType, res.2)
        | none => (Outcome.fault PyError.fieldOrType, res.2)
      | ReqResult.apiError m => (Outcome.api m, res.2)
      | ReqResult.pyErr e => (Outcome.fault e, res.2)
  else if args.list_labels then
    if !(pyTruthyOpt args.board_id) then
      (Outcome.usage "--board_id is required to list labels.", [])
    else
      let res := Trello.listLabels trello net (args.board_id.getD "")
      match res.1 with
      | ReqResult.ok j =>
        match pyIter j with
        | some elems =>
          match formatIdNameColor elems with
          | some out => (Outcome.ok out, res.2)
          | none => (Outcome.fault PyError.fieldOrType, res.2)
        | none => (Outcome.fault PyError.fieldOrType, res.2)
      | ReqResult.apiError m => (Outcome.api m, res.2)
      | ReqResult.pyErr e => (Outcome.fault e, res.2)
  else if args.add_card then
    if !(pyTruthyOpt args.list_id) || !(pyTruthyOpt args.name)
        || !(pyTruthyOpt args.description) then
      (Outcome.usage "--list_id, --name, and --description are required to add a card.", [])
    else
      let res := Trello.addCard trello net (args.list_id.getD "")
        (args.name.getD "") (args.description.getD "") (some args.label_ids)
      match res.1 with
      | ReqResult.ok j =>
        match Json.getStr j "id" with
        | some i => (Outcome.ok (i ++ " added.\n"), res.2)
        | none => (Outcome.fault PyError.fieldOrType, res.2)
      | ReqResult.apiError m => (Outcome.api m, res.2)
      | ReqResult.pyErr e => (Outcome.fault e, res.2)
  else if args.add_comment then
    if !(pyTruthyOpt args.card_id) || !(pyTruthyOpt args.comment) then
      (Outcome.usage "--card_id and --comment are required to add a comment.", [])
    else
      let res := Trello.addComment trello net (args.card_id.getD "")
        (args.comment.getD "")
      match res.1 with
      | ReqResult.ok j =>
        match Json.getStr j "id" with
        | some i => (Outcome.ok (i ++ " added.\n"), res.2)
        | none => (Outcome.fault PyError.fieldOrType, res.2)
      | ReqResult.apiError m => (Outcome.api m, res.2)
      | ReqResult.pyErr e => (Outcome.fault e, res.2)
  else
    (Outcome.usage actionUsageMsg, [])

/-- `main`: run `getConfig` then `action`; a `CliException` from either step
becomes the usage outcome, with no HTTP request issued during parsing. -/
def mainRun (inp : CliInput) (net : Net) : Outcome × List HttpRequest :=
  match Cli.getConfig inp with
  | Except.error msg => (Outcome.usage msg, [])
  | Except.ok args => Cli.action args net

/-- The single request `listBoards` issues for given credentials. -/
def boardsReq (key tok : String) : HttpRequest :=
  ⟨"GET", (Trello.mk key tok).url "/1/members/me/boards", [], Trello.HEADERS⟩

/-- The single request `listColumns` issues. -/
def columnsReq (key tok boardId : String) : HttpRequest :=
  ⟨"GET", (Trello.mk key tok).url ("/1/boards/" ++ boardId ++ "/lists"), [],
   Trello.HEADERS⟩

/-- The single request `listLabels` issues. -/
def labelsReq (key tok boardId : String) : HttpRequest :=
  ⟨"GET", (Trello.mk key tok).url ("/1/boards/" ++ boardId ++ "/labels"), [],
   Trello.HEADERS⟩

/-- The single request `addCard` issues. -/
def cardsReq (key tok listId nm dsc : String) (labels : List String) :
    HttpRequest :=
  ⟨"POST", (Trello.mk key tok).url "/1/cards",
   [("idList", listId), ("name", nm), ("desc", dsc),
    ("idLabels", String.intercalate "," labels)],
   Trello.HEADERS⟩

/-- The single request `addComment` issues. -/
def commentReq (key tok cardId cmt : String) : HttpRequest :=
  ⟨"POST", (Trello.mk key tok).url ("/1/cards/" ++ cardId ++ "/actions/comments"),
   [("id", cardId), ("text", cmt)], Trello.HEADERS⟩

/-- An args dictionary with credentials only (no action flag, no data flags,
`--label_ids` left at its default after the source's split). -/
def baseArgs (key tok : String) : Args :=
  { key := key
    token := tok
    list_boards := false
    list_columns := false
    list_labels := false
    add_card := false
    add_comment := false
    board_id := none
    list_id := none
    card_id := none
    name := none
    description := none
    comment := none
    label_ids := [""] }

/-- Args for a `--list-boards` invocation. -/
def listBoardsArgs (key tok : String) : Args :=
  { baseArgs key tok with list_boards := true }

/-- Args for a `--list-columns` invocation. -/
def listColumnsArgs (key tok boardId : String) : Args :=
  { baseArgs key tok with list_columns := true, board_id := some boardId }

/-- Args for a `--list-labels` invocation. -/
def listLabelsArgs (key tok boardId : String) : Args :=
  { baseArgs key tok with list_labels := true, board_id := some boardId }

/-- Args for an `--add-card` invocation. -/
def addCardArgs (key tok listId nm dsc : String) (labelIds : List String) :
    Args :=
  { baseArgs key tok with
    add_card := true
    list_id := some listId
    name := some nm
    description := some dsc
    label_ids := labelIds }

/-- Args for an `--add-comment` invocation. -/
def addCommentArgs (key tok cardId cmt : String) : Args :=
  { baseArgs key tok with
    add_comment := true
    card_id := some cardId
    comment := some cmt }

/-- A JSON array of records shaped like board/column listings. -/
def rows2Json (recs : List (String × String)) : Json :=
  Json.arr (recs.map (fun p => Json.obj [("id", Json.str p.1), ("name", Json.str p.2)]))

/-- The text the boards/columns loop prints for those records, in order. -/
def rows2Out : List (String × String) → String
  | [] => ""
  | p :: ps => p.1 ++ " " ++ p.2 ++ "\n" ++ rows2Out ps

/-- A JSON array of records shaped like label listings. -/
def rows3Json (recs : List (String × String × String)) : Json :=
  Json.arr (recs.map (fun p =>
    Json.obj [("id", Json.str p.1), ("name", Json.str p.2.1), ("color", Json.str p.2.2)]))

/-- The text the labels loop prints for those records, in order. -/
def rows3Out : List (String × String × String) → String
  | [] => ""
  | p :: ps => p.1 ++ " " ++ p.2.1 ++ " " ++ p.2.2 ++ "\n" ++ rows3Out ps

/-- An invocation with nothing passed and no environment variables set. -/
def emptyCliInput : CliInput :=
  { flagKey := none
    envKey := none
    flagToken := none
    envToken := none
    list_boards := false
    list_columns := false
    list_labels := false
    add_card := false
    add_comment := false
    board_id := none
    list_id := none
    card_id := none
    name := none
    description := none
    comment := none
    label_ids := none }

/-- An invocation with credentials passed by flag and nothing else. -/
def credCliInput : CliInput :=
  { emptyCliInput with flagKey := some "k", flagToken := some "t" }

/-- An invocation passing `--key ""` and a non-empty token. -/
def emptyKeyInput : CliInput :=
  { emptyCliInput with flagKey := some "", flagToken := some "t" }

/-- An invocation setting both `--list-boards` and `--list-columns`. -/
def twoFlagsInput : CliInput :=
  { credCliInput with list_boards := true, list_columns := true }

/-- An invocation passing `--label_ids a,b` (no whitespace around the comma,
exactly as in the program's own usage examples). -/
def labelIdsInput : CliInput :=
  { credCliInput with label_ids := some "a,b" }

/-- Args for `--add-card` with `--name` and `--description` given but
`--list-id` missing. -/
def missingListIdArgs : Args :=
  { baseArgs "k" "t" with
    add_card := true
    name := some "N"
    description := some "D" }

/-- A network oracle answering every request with status 200 and body `[]`. -/
def emptyArrNet : Net := fun _ => HttpResponse.mk 200 "[]"

/-- A string starts with itself followed by anything. -/
theorem chStartsWith_append (pre post : List Char) :
    chStartsWith (pre ++ post) pre = true := by
  induction pre with
  | nil => simp [chStartsWith]
  | cons c cs ih => simp [chStartsWith, ih]

/-- Every character list contains the empty run. -/
theorem chHasSub_nil (l : List Char) : chHasSub l [] = true := by
  cases l <;> simp [chHasSub, chStartsWith]

/-- A contiguous run is found wherever it occurs. -/
theorem chHasSub_parts (pre sub post : List Char) :
    chHasSub (pre ++ (sub ++ post)) sub = true := by
  induction pre with
  | nil =>
    cases sub with
    | nil => exact chHasSub_nil post
    | cons c cs =>
      have h := chStartsWith_append (c :: cs) post
      simp only [List.nil_append, List.cons_append] at h ⊢
      simp [chHasSub, h]
  | cons c cs ih =>
    simp [chHasSub, ih]

/-- `strContains` finds a substring wherever it occurs. -/
theorem strContains_parts (pre sub post : String) :
    strContains (pre ++ (sub ++ post)) sub = true := by
  have h : (pre ++ (sub ++ post)).data = pre.data ++ (sub.data ++ post.data) := rfl
  rw [strContains, h]
  exact chHasSub_parts pre.data sub.data post.data

/-- The `ApiRequestException` message mentions the status code and the raw
response body. -/
theorem apiErrMsg_mentions (r : HttpResponse) :
    strContains (apiErrMsg r) (toString r.status_code) = true ∧
    strContains (apiErrMsg r) r.text = true := by
  constructor
  · have h : apiErrMsg r =
        "Trello API returned status code " ++
          (toString r.status_code ++ (". response body: " ++ r.text)) := by
      simp [apiErrMsg, String.append_assoc]
    rw [h]
    exact strContains_parts _ _ _
  · have h : apiErrMsg r =
        ("Trello API returned status code " ++ toString r.status_code ++
          ". response body: ") ++ (r.text ++ "") := by
      simp [apiErrMsg, String.append_assoc, String.append_empty]
    rw [h]
    exact strContains_parts _ _ _

/-- The boards/columns loop prints one `"{id} {name}"` line per record of a
well-shaped array, in order. -/
theorem formatIdName_mapRows (recs : List (String × String)) :
    formatIdName (recs.map (fun p =>
      Json.obj [("id", Json.str p.1), ("name", Json.str p.2)])) =
      some (rows2Out recs) := by
  induction recs with
  | nil => rfl
  | cons p ps ih =>
    simp only [List.map_cons, formatIdName, ih]
    rfl

/-- The labels loop prints one `"{id} {name} {color}"` line per record of a
well-shaped array, in order. -/
theorem formatIdNameColor_mapRows (recs : List (String × String × String)) :
    formatIdNameColor (recs.map (fun p =>
      Json.obj [("id", Json.str p.1), ("name", Json.str p.2.1),
                ("color", Json.str p.2.2)])) =
      some (rows3Out recs) := by
  induction recs with
  | nil => rfl
  | cons p ps ih =>
    simp only [List.map_cons, formatIdNameColor, ih]
    rfl

/-- C1: for every ApiClient operation (all of which call `Trello.request`
with method GET or POST) and every HTTP response, a non-200 status raises
`ApiRequestException` whose message contains both the status code and the
raw response body text, and a 200 status returns the response body parsed as
JSON unchanged. -/
theorem trelloRequestResponseHandling (t : Trello) (net : Net)
    (method uri : String) (query : List (String × String)) (r : HttpResponse)
    (hm : method = "GET" ∨ method = "POST")
    (hr : net ⟨method, t.url uri, query, Trello.HEADERS⟩ = r) :
    (r.status_code ≠ 200 →
      (t.request net method uri query).1 = ReqResult.apiError (apiErrMsg r) ∧
      strContains (apiErrMsg r) (toString r.status_code) = true ∧
      strContains (apiErrMsg r) r.text = true) ∧
    (∀ j : Json, r.status_code = 200 → jsonParse r.text = some j →
      (t.request net method uri query).1 = ReqResult.ok j) := by
  constructor
  · intro hne
    refine ⟨?_, (apiErrMsg_mentions r).1, (apiErrMsg_mentions r).2⟩
    have hb : (r.status_code == 200) = false := by simpa using hne
    rcases hm with h | h <;> subst h <;> simp [Trello.request, hr, hb]
  · intro j h200 hj
    have hb : (r.status_code == 200) = true := by simpa using h200
    rcases hm with h | h <;> subst h <;> simp [Trello.request, hr, hb, hj]

/-- C1 witness: a 401 response with body `unauthorized` makes `request`
raise `ApiRequestException` mentioning both, at a concrete input. -/
theorem trelloRequestResponseHandlingW :
    ((Trello.mk "k" "t").request (fun _ => HttpResponse.mk 401 "unauthorized")
        "GET" "/1/members/me/boards" []).1 =
      ReqResult.apiError
        "Trello API returned status code 401. response body: unauthorized" ∧
    strContains
        "Trello API returned status code 401. response body: unauthorized"
        "401" = true ∧
    strContains
        "Trello API returned status code 401. response body: unauthorized"
        "unauthorized" = true := by
  have h := trelloRequestResponseHandling (Trello.mk "k" "t")
    (fun _ => HttpResponse.mk 401 "unauthorized") "GET" "/1/members/me/boards"
    [] (HttpResponse.mk 401 "unauthorized") (Or.inl rfl) rfl
  exact h.1 (by decide)

/-- C9: `Trello.request` assigns a response only for methods GET and POST;
any other method faults on the unassigned response variable without issuing
a request and without raising `ApiRequestException`; under the precondition
method ∈ \x7bGET, POST\x7d that fault is unreachable, and each of the five
public operations calls `request` with such a method. -/
theorem requestMethodSafety (t : Trello) (net : Net)
    (method uri boardId listId nm dsc cardId cmt : String)
    (query : List (String × String)) (labels : Option (List String)) :
    (method ≠ "GET" → method ≠ "POST" →
      t.request net method uri query = (ReqResult.pyErr PyError.unboundLocal, [])) ∧
    ((method = "GET" ∨ method = "POST") →
      (t.request net method uri query).1 ≠ ReqResult.pyErr PyError.unboundLocal) ∧
    t.listBoards net = t.request net "GET" "/1/members/me/boards" [] ∧
    t.listColumns net boardId =
      t.request net "GET" ("/1/boards/" ++ boardId ++ "/lists") [] ∧
    t.listLabels net boardId =
      t.request net "GET" ("/1/boards/" ++ boardId ++ "/labels") [] ∧
    t.addCard net listId nm dsc labels =
      t.request net "POST" "/1/cards"
        [("idList", listId), ("name", nm), ("desc", dsc),
         ("idLabels", String.intercalate "," (labels.getD []))] ∧
    t.addComment net cardId cmt =
      t.request net "POST" ("/1/cards/" ++ cardId ++ "/actions/comments")
        [("id", cardId), ("text", cmt)] := by
  refine ⟨?_, ?_, rfl, rfl, rfl, rfl, rfl⟩
  · intro h1 h2
    have b1 : (method == "GET") = false := by simpa using h1
    have b2 : (method == "POST") = false := by simpa using h2
    simp [Trello.request, b1, b2]
  · intro hm
    rcases hm with h | h <;> subst h <;> simp [Trello.request] <;>
      split <;> (try split) <;> simp

/-- C9 witness: method `PUT` faults without issuing a request, and a GET at
the same concrete input does not reach that fault. -/
theorem requestMethodSafetyW :
    (Trello.mk "k" "t").request emptyArrNet "PUT" "/x" [] =
      (ReqResult.pyErr PyError.unboundLocal, []) ∧
    ((Trello.mk "k" "t").request emptyArrNet "GET" "/x" []).1 ≠
      ReqResult.pyErr PyError.unboundLocal := by
  constructor
  · exact (requestMethodSafety (Trello.mk "k" "t") emptyArrNet "PUT" "/x" "b"
      "l" "n" "d" "c" "m" [] none).1 (by decide) (by decide)
  · exact (requestMethodSafety (Trello.mk "k" "t") emptyArrNet "GET" "/x" "b"
      "l" "n" "d" "c" "m" [] none).2.1 (Or.inl rfl)

/-- C7: when the key or the token resolves to no value (neither the flag nor
the fallback environment variable supplies it), the invocation fails with
the `CliException` that mentions both `--key` and `--token`, and no HTTP
request is issued. -/
theorem missingCredentialsUsage (inp : CliInput) (net : Net)
    (h : resolveOpt inp.flagKey inp.envKey = none ∨
         resolveOpt inp.flagToken inp.envToken = none) :
    mainRun inp net = (Outcome.usage keyTokenMsg, []) ∧
    strContains keyTokenMsg "--key" = true ∧
    strContains keyTokenMsg "--token" = true := by
  refine ⟨?_, by decide, by decide⟩
  rcases h with h | h <;> simp [mainRun, Cli.getConfig, h, pyTruthyOpt]

/-- C7 witness: invoking with no flags and no environment variables set
yields the credentials usage error and no HTTP call. -/
theorem missingCredentialsUsageW :
    mainRun emptyCliInput emptyArrNet = (Outcome.usage keyTokenMsg, []) :=
  (missingCredentialsUsage emptyCliInput emptyArrNet (Or.inl rfl)).1

/-- C10: an empty-string credential is treated exactly like an absent one:
when the key or token resolves to `""`, `getConfig` raises the same
credentials `CliException`, with no HTTP call. -/
theorem emptyCredentialUsage (inp : CliInput) (net : Net)
    (h : resolveOpt inp.flagKey inp.envKey = some "" ∨
         resolveOpt inp.flagToken inp.envToken = some "") :
    mainRun inp net = (Outcome.usage keyTokenMsg, []) := by
  rcases h with h | h <;> simp [mainRun, Cli.getConfig, h, pyTruthyOpt]

/-- C10 witness: `--key ""` with a non-empty token yields the credentials
usage error. -/
theorem emptyCredentialUsageW :
    mainRun emptyKeyInput emptyArrNet = (Outcome.usage keyTokenMsg, []) :=
  emptyCredentialUsage emptyKeyInput emptyArrNet (Or.inl rfl)

/-- C8: with usable credentials and none of the five action flags set, the
invocation fails with the `CliException` that lists all five actions, and no
HTTP request is issued. -/
theorem noActionUsage (inp : CliInput) (net : Net)
    (hk : pyTruthyOpt (resolveOpt inp.flagKey inp.envKey) = true)
    (ht : pyTruthyOpt (resolveOpt inp.flagToken inp.envToken) = true)
    (h1 : inp.list_boards = false) (h2 : inp.list_columns = false)
    (h3 : inp.list_labels = false) (h4 : inp.add_card = false)
    (h5 : inp.add_comment = false) :
    mainRun inp net = (Outcome.usage actionUsageMsg, []) ∧
    strContains actionUsageMsg "--list-boards" = true ∧
    strContains actionUsageMsg "--list-columns" = true ∧
    strContains actionUsageMsg "--list-labels" = true ∧
    strContains actionUsageMsg "--add-card" = true ∧
    strContains actionUsageMsg "--add-comment" = true := by
  refine ⟨?_, by decide, by decide, by decide, by decide, by decide⟩
  simp [mainRun, Cli.getConfig, hk, ht, Cli.action, h1, h2, h3, h4, h5]

/-- C8 witness: credentials given, no action flag set. -/
theorem noActionUsageW :
    mainRun credCliInput emptyArrNet = (Outcome.usage actionUsageMsg, []) :=
  (noActionUsage credCliInput emptyArrNet rfl rfl rfl rfl rfl rfl rfl).1

/-- C3: evaluation of the source's `re.split` pattern on the label ids.  The
pattern only separates at a comma surrounded by whitespace on both sides, so
the documented bare-comma form `a,b` stays a single element and the default
empty string becomes the one-element list containing `""` (not the empty
list); splitting does occur when the comma is padded with whitespace.  The
last two conjuncts run `getConfig` end to end on such invocations. -/
theorem labelIdsSplitBug :
    reSplitWsCommaWs "a,b" = ["a,b"] ∧
    reSplitWsCommaWs "a,b" ≠ ["a", "b"] ∧
    reSplitWsCommaWs "" = [""] ∧
    reSplitWsCommaWs "" ≠ [] ∧
    reSplitWsCommaWs "a , b" = ["a", "b"] ∧
    (Cli.getConfig labelIdsInput).map Args.label_ids = Except.ok ["a,b"] ∧
    (Cli.getConfig credCliInput).map Args.label_ids = Except.ok [""] := by
  exact ⟨rfl, by decide, rfl, by decide, rfl, rfl, rfl⟩

/-- C2 counterexample: an invocation setting both `--list-boards` and
`--list-columns` is accepted without any usage error — it performs the
list-boards action (one HTTP request, empty output for an empty array
response) instead of being rejected. -/
theorem multiActionAcceptedCx :
    twoFlagsInput.list_boards = true ∧
    twoFlagsInput.list_columns = true ∧
    (mainRun twoFlagsInput emptyArrNet).1 = Outcome.ok "" ∧
    (mainRun twoFlagsInput emptyArrNet).2 = [boardsReq "k" "t"] := by
  exact ⟨rfl, rfl, rfl, rfl⟩

/-- C2 (amended): an invocation with zero action flags is rejected with the
usage error listing the actions; when at least one flag is set the
invocation is accepted, and the first set flag in the order list-boards,
list-columns, list-labels, add-card, add-comment decides the action — the
later flags are ignored. -/
theorem actionFlagPriority (args : Args) (net : Net) :
    (args.list_boards = false → args.list_columns = false →
      args.list_labels = false → args.add_card = false →
      args.add_comment = false →
      Cli.action args net = (Outcome.usage actionUsageMsg, [])) ∧
    (args.list_boards = true →
      Cli.action args net =
        Cli.action { args with list_columns := false, list_labels := false, add_card := false, add_comment := false } net) ∧
    (args.list_boards = false → args.list_columns = true →
      Cli.action args net =
        Cli.action { args with list_labels := false, add_card := false, add_comment := false } net) ∧
    (args.list_boards = false → args.list_columns = false →
      args.list_labels = true →
      Cli.action args net =
        Cli.action { args with add_card := false, add_comment := false } net) ∧
    (args.list_boards = false → args.list_columns = false →
      args.list_labels = false → args.add_card = true →
      Cli.action args net =
        Cli.action { args with add_comment := false } net) := by
  refine ⟨fun h1 h2 h3 h4 h5 => ?_, fun h1 => ?_, fun h1 h2 => ?_,
    fun h1 h2 h3 => ?_, fun h1 h2 h3 h4 => ?_⟩ <;>
    simp [Cli.action, h1]
  · simp [h2, h3, h4, h5]
  · simp [h2]
  · simp [h2, h3]
  · simp [h2, h3, h4]

/-- C2 witness (for the amended claim): with credentials present and no
action flag, the action step rejects with the usage error listing the
actions. -/
theorem actionFlagPriorityW :
    Cli.action (baseArgs "k" "t") emptyArrNet =
      (Outcome.usage actionUsageMsg, []) :=
  (actionFlagPriority (baseArgs "k" "t") emptyArrNet).1 rfl rfl rfl rfl rfl

/-- C4 counterexample: an `--add-card` invocation missing only `--list-id`
raises a usage error whose message names `--name` (a field that was in fact
supplied) and spells the list-id field `--list_id`, not the external flag
spelling `--list-id` — so the message does not name exactly the missing
field(s) as the flags are defined in the interface. -/
theorem requiredFieldNamingCx :
    missingListIdArgs.name = some "N" ∧
    missingListIdArgs.list_id = none ∧
    Cli.action missingListIdArgs emptyArrNet =
      (Outcome.usage
        "--list_id, --name, and --description are required to add a card.",
       []) ∧
    strContains
      "--list_id, --name, and --description are required to add a card."
      "--name" = true ∧
    strContains
      "--list_id, --name, and --description are required to add a card."
      "--list_id" = true ∧
    strContains
      "--list_id, --name, and --description are required to add a card."
      "--list-id" = false := by
  exact ⟨rfl, rfl, rfl, rfl, rfl, rfl⟩

/-- C4 (amended): selecting an action while omitting any of its required
fields raises a `CliException` before any HTTP call; the message is a fixed
per-action string naming all of the action's required data fields, with the
multi-word ones spelled with underscores (`--board_id`, `--list_id`,
`--card_id`) rather than the hyphenated flag spellings of the external
interface. -/
theorem requiredFieldUsage (args : Args) (net : Net) :
    (args.list_boards = false → args.list_columns = true →
      pyTruthyOpt args.board_id = false →
      Cli.action args net =
        (Outcome.usage "--board_id is required to list columns.", [])) ∧
    (args.list_boards = false → args.list_columns = false →
      args.list_labels = true → pyTruthyOpt args.board_id = false →
      Cli.action args net =
        (Outcome.usage "--board_id is required to list labels.", [])) ∧
    (args.list_boards = false → args.list_columns = false →
      args.list_labels = false → args.add_card = true →
      (pyTruthyOpt args.list_id = false ∨ pyTruthyOpt args.name = false ∨
        pyTruthyOpt args.description = false) →
      Cli.action args net =
        (Outcome.usage
          "--list_id, --name, and --description are required to add a card.",
         [])) ∧
    (args.list_boards = false → args.list_columns = false →
      args.list_labels = false → args.add_card = false →
      args.add_comment = true →
      (pyTruthyOpt args.card_id = false ∨ pyTruthyOpt args.comment = false) →
      Cli.action args net =
        (Outcome.usage
          "--card_id and --comment are required to add a comment.", [])) := by
  refine ⟨fun h1 h2 hb => ?_, fun h1 h2 h3 hb => ?_,
    fun h1 h2 h3 h4 hb => ?_, fun h1 h2 h3 h4 h5 hb => ?_⟩
  · simp [Cli.action, h1, h2, hb]
  · simp [Cli.action, h1, h2, h3, hb]
  · rcases hb with hb | hb | hb <;> simp [Cli.action, h1, h2, h3, h4, hb]
  · rcases hb with hb | hb <;> simp [Cli.action, h1, h2, h3, h4, h5, hb]

/-- C4 witness (for the amended claim): `--add-card` with name and
description given but list id missing. -/
theorem requiredFieldUsageW :
    Cli.action missingListIdArgs emptyArrNet =
      (Outcome.usage
        "--list_id, --name, and --description are required to add a card.",
       []) :=
  (requiredFieldUsage missingListIdArgs emptyArrNet).2.2.1 rfl rfl rfl rfl
    (Or.inl rfl)

/-- C6: each listing operation issues exactly one GET to its fixed endpoint
with `key` and `token` as query-string parameters, and a 200 array response
of well-shaped records prints one newline-terminated line per record, in
array order: `"{id} {name}"` for boards and columns, `"{id} {name} {color}"`
for labels. -/
theorem listingWireAndOutput (key tok boardId : String) (net : Net)
    (hb : boardId ≠ "") :
    ((Trello.mk key tok).listBoards net).2 = [boardsReq key tok] ∧
    ((Trello.mk key tok).listColumns net boardId).2 = [columnsReq key tok boardId] ∧
    ((Trello.mk key tok).listLabels net boardId).2 = [labelsReq key tok boardId] ∧
    (boardsReq key tok).method = "GET" ∧
    (columnsReq key tok boardId).method = "GET" ∧
    (labelsReq key tok boardId).method = "GET" ∧
    (boardsReq key tok).url =
      "https://api.trello.com/1/members/me/boards?key=" ++ key ++ "&token=" ++ tok ∧
    (columnsReq key tok boardId).url =
      "https://api.trello.com/1/boards/" ++ boardId ++ "/lists?key=" ++ key ++ "&token=" ++ tok ∧
    (labelsReq key tok boardId).url =
      "https://api.trello.com/1/boards/" ++ boardId ++ "/labels?key=" ++ key ++ "&token=" ++ tok ∧
    (∀ recs : List (String × String),
      (net (boardsReq key tok)).status_code = 200 →
      jsonParse (net (boardsReq key tok)).text = some (rows2Json recs) →
      Cli.action (listBoardsArgs key tok) net =
        (Outcome.ok (rows2Out recs), [boardsReq key tok])) ∧
    (∀ recs : List (String × String),
      (net (columnsReq key tok boardId)).status_code = 200 →
      jsonParse (net (columnsReq key tok boardId)).text = some (rows2Json recs) →
      Cli.action (listColumnsArgs key tok boardId) net =
        (Outcome.ok (rows2Out recs), [columnsReq key tok boardId])) ∧
    (∀ recs : List (String × String × String),
      (net (labelsReq key tok boardId)).status_code = 200 →
      jsonParse (net (labelsReq key tok boardId)).text = some (rows3Json recs) →
      Cli.action (listLabelsArgs key tok boardId) net =
        (Outcome.ok (rows3Out recs), [labelsReq key tok boardId])) := by
  refine ⟨rfl, rfl, rfl, rfl, rfl, rfl, ?_, ?_, ?_, ?_, ?_, ?_⟩
  · simp only [boardsReq, Trello.url, Trello.BASE_URI, String.append_assoc]
    rfl
  · simp only [columnsReq, Trello.url, Trello.BASE_URI, String.append_assoc]
    rfl
  · simp only [labelsReq, Trello.url, Trello.BASE_URI, String.append_assoc]
    rfl
  · intro recs h200 hj
    simp [boardsReq, Trello.url, Trello.BASE_URI] at h200 hj
    simp [Cli.action, listBoardsArgs, baseArgs, Trello.listBoards,
      Trello.request, Trello.url, Trello.BASE_URI, h200, hj, rows2Json,
      pyIter, formatIdName_mapRows, boardsReq]
  · intro recs h200 hj
    have hbid : pyTruthyOpt (some boardId) = true := by
      simp [pyTruthyOpt, hb]
    simp [columnsReq, Trello.url, Trello.BASE_URI] at h200 hj
    simp [Cli.action, listColumnsArgs, baseArgs, Trello.listColumns,
      Trello.request, Trello.url, Trello.BASE_URI, h200, hj, hbid, rows2Json,
      pyIter, formatIdName_mapRows, columnsReq]
  · intro recs h200 hj
    have hbid : pyTruthyOpt (some boardId) = true := by
      simp [pyTruthyOpt, hb]
    simp [labelsReq, Trello.url, Trello.BASE_URI] at h200 hj
    simp [Cli.action, listLabelsArgs, baseArgs, Trello.listLabels,
      Trello.request, Trello.url, Trello.BASE_URI, h200, hj, hbid, rows3Json,
      pyIter, formatIdNameColor_mapRows, labelsReq]

/-- C6 witness: concrete listing invocations with the spec's example
responses produce the example output lines. -/
theorem listingWireAndOutputW :
    Cli.action (listBoardsArgs "k" "t")
        (fun _ => HttpResponse.mk 200 "[\x7b\"id\":\"b1\",\"name\":\"Board1\"\x7d]") =
      (Outcome.ok "b1 Board1\n", [boardsReq "k" "t"]) ∧
    Cli.action (listLabelsArgs "k" "t" "B")
        (fun _ => HttpResponse.mk 200 "[\x7b\"id\":\"l1\",\"name\":\"Bugs\",\"color\":\"red\"\x7d]") =
      (Outcome.ok "l1 Bugs red\n", [labelsReq "k" "t" "B"]) := by
  constructor
  · exact (listingWireAndOutput "k" "t" "B"
      (fun _ => HttpResponse.mk 200 "[\x7b\"id\":\"b1\",\"name\":\"Board1\"\x7d]")
      (by decide)).2.2.2.2.2.2.2.2.2.1 [("b1", "Board1")] rfl rfl
  · exact (listingWireAndOutput "k" "t" "B"
      (fun _ => HttpResponse.mk 200 "[\x7b\"id\":\"l1\",\"name\":\"Bugs\",\"color\":\"red\"\x7d]")
      (by decide)).2.2.2.2.2.2.2.2.2.2.2 [("l1", "Bugs", "red")] rfl rfl

/-- C5: `addCard` issues exactly one POST to `/1/cards` with parameters
`idList`, `name`, `desc` and `idLabels` (the label ids joined with commas),
`addComment` issues exactly one POST to `/1/cards/{cardId}/actions/comments`
with parameters `id` and `text`, and in both cases a 200 response object
whose `id` field is `X` makes the invocation print `"X added.\n"`. -/
theorem mutationWireAndOutput (key tok listId nm dsc cardId cmt : String)
    (labels : List String) (net : Net)
    (hl : listId ≠ "") (hn : nm ≠ "") (hd : dsc ≠ "")
    (hc : cardId ≠ "") (hcm : cmt ≠ "") :
    ((Trello.mk key tok).addCard net listId nm dsc (some labels)).2 =
      [cardsReq key tok listId nm dsc labels] ∧
    ((Trello.mk key tok).addComment net cardId cmt).2 =
      [commentReq key tok cardId cmt] ∧
    (cardsReq key tok listId nm dsc labels).method = "POST" ∧
    (commentReq key tok cardId cmt).method = "POST" ∧
    (cardsReq key tok listId nm dsc labels).url =
      "https://api.trello.com/1/cards?key=" ++ key ++ "&token=" ++ tok ∧
    (cardsReq key tok listId nm dsc labels).params =
      [("idList", listId), ("name", nm), ("desc", dsc),
       ("idLabels", String.intercalate "," labels)] ∧
    (commentReq key tok cardId cmt).url =
      "https://api.trello.com/1/cards/" ++ cardId ++ "/actions/comments?key=" ++ key ++ "&token=" ++ tok ∧
    (commentReq key tok cardId cmt).params = [("id", cardId), ("text", cmt)] ∧
    (∀ (j : Json) (outId : String),
      (net (cardsReq key tok listId nm dsc labels)).status_code = 200 →
      jsonParse (net (cardsReq key tok listId nm dsc labels)).text = some j →
      Json.getStr j "id" = some outId →
      Cli.action (addCardArgs key tok listId nm dsc labels) net =
        (Outcome.ok (outId ++ " added.\n"),
         [cardsReq key tok listId nm dsc labels])) ∧
    (∀ (j : Json) (outId : String),
      (net (commentReq key tok cardId cmt)).status_code = 200 →
      jsonParse (net (commentReq key tok cardId cmt)).text = some j →
      Json.getStr j "id" = some outId →
      Cli.action (addCommentArgs key tok cardId cmt) net =
        (Outcome.ok (outId ++ " added.\n"),
         [commentReq key tok cardId cmt])) := by
  refine ⟨rfl, rfl, rfl, rfl, ?_, rfl, ?_, rfl, ?_, ?_⟩
  · simp only [cardsReq, Trello.url, Trello.BASE_URI, String.append_assoc]
    rfl
  · simp only [commentReq, Trello.url, Trello.BASE_URI, String.append_assoc]
    rfl
  · intro j outId h200 hj hid
    simp [cardsReq, Trello.url, Trello.BASE_URI] at h200 hj
    simp [Cli.action, addCardArgs, baseArgs, Trello.addCard, Trello.request,
      Trello.url, Trello.BASE_URI, pyTruthyOpt, hl, hn, hd, h200, hj, hid,
      cardsReq]
  · intro j outId h200 hj hid
    simp [commentReq, Trello.url, Trello.BASE_URI] at h200 hj
    simp [Cli.action, addCommentArgs, baseArgs, Trello.addComment,
      Trello.request, Trello.url, Trello.BASE_URI, pyTruthyOpt, hc, hcm,
      h200, hj, hid, commentReq]

/-- C5 witness: concrete add-card and add-comment invocations; the card POST
carries `idLabels` `a,b` for label ids `["a", "b"]`, and `\x7b"id":"c1"\x7d`
and `\x7b"id":"m1"\x7d` responses print `c1 added.` and `m1 added.`. -/
theorem mutationWireAndOutputW :
    Cli.action (addCardArgs "k" "t" "L" "Name" "Desc" ["a", "b"])
        (fun _ => HttpResponse.mk 200 "\x7b\"id\":\"c1\"\x7d") =
      (Outcome.ok "c1 added.\n",
       [cardsReq "k" "t" "L" "Name" "Desc" ["a", "b"]]) ∧
    Cli.action (addCommentArgs "k" "t" "C" "hi")
        (fun _ => HttpResponse.mk 200 "\x7b\"id\":\"m1\"\x7d") =
      (Outcome.ok "m1 added.\n", [commentReq "k" "t" "C" "hi"]) ∧
    (cardsReq "k" "t" "L" "Name" "Desc" ["a", "b"]).params =
      [("idList", "L"), ("name", "Name"), ("desc", "Desc"),
       ("idLabels", "a,b")] := by
  refine ⟨?_, ?_, rfl⟩
  · exact (mutationWireAndOutput "k" "t" "L" "Name" "Desc" "C" "hi" ["a", "b"]
      (fun _ => HttpResponse.mk 200 "\x7b\"id\":\"c1\"\x7d") (by decide)
      (by decide) (by decide) (by decide) (by decide)).2.2.2.2.2.2.2.2.1
      (Json.obj [("id", Json.str "c1")]) "c1" rfl rfl rfl
  · exact (mutationWireAndOutput "k" "t" "L" "Name" "Desc" "C" "hi" ["a", "b"]
      (fun _ => HttpResponse.mk 200 "\x7b\"id\":\"m1\"\x7d") (by decide)
      (by decide) (by decide) (by decide) (by decide)).2.2.2.2.2.2.2.2.2
      (Json.obj [("id", Json.str "m1")]) "m1" rfl rfl rfl
